import Mathlib

/-!
Verification of the background-processing and cache subsystem of a
task-management backend.

The development shallowly embeds the relevant TypeScript services:

* `RedisCache` — `src/common/services/redis-cache.service.ts`
  (`RedisCacheService`: `get`, `set`, `deletePattern`, `getOrSet`).
* `categorizeError`, `validateJobData`, `processJob` —
  `src/queues/task-processor/task-processor.service.ts`
  (`TaskProcessorService`).
* `scanGo`, `checkOverdueTasksCounts`, `triggerOverdueCheck`,
  `calculateOverdueDuration`, `makeOverdueJobId` —
  `src/queues/scheduled-tasks/overdue-tasks.service.ts`
  (`OverdueTasksService`).

Machine time is modelled as a natural number of milliseconds (seconds for
cache TTLs), JSON payload values as the inductive `JVal`, fallible calls
as `Except`, and the asynchronous service methods as pure functions over
an explicit store state.
-/

/-- JSON-serializable values, the payloads stored in the cache.

Serialization is modelled as the identity on `JVal`: `JSON.stringify` is
injective on these values and always produces a non-empty string, and
`JSON.parse` is its left inverse on its image, so storing the value itself
is faithful.  The one semantically relevant aliasing of the source —
`JSON.parse "null"` is the same value as the cache-miss sentinel `null` —
is preserved because the stored `jnull` is returned as the very value that
the service uses for a miss. -/
inductive JVal where
  | jnull
  | jbool (b : Bool)
  | jnum (n : Int)
  | jstr (s : String)
deriving DecidableEq, Repr

/-- One Redis key with its absolute expiry instant (ms) and stored value. -/
structure CacheEntry where
  key : String
  expiresAt : Nat
  value : JVal
deriving DecidableEq, Repr

/-- The Redis keyspace: entries keyed by full (namespaced) key. -/
abbrev Store := List CacheEntry

/-- Character-list version of `String.startsWith` (needle starts hay). -/
def charsStart : List Char → List Char → Bool
  | [], _ => true
  | _ :: _, [] => false
  | a :: as, b :: bs => a == b && charsStart as bs

/-- `charsIn needle hay`: needle occurs contiguously inside hay; the
embedding of JavaScript `String.prototype.includes`. -/
def charsIn : List Char → List Char → Bool
  | needle, [] => needle.isEmpty
  | needle, h :: t => charsStart needle (h :: t) || charsIn needle t

/-- `strIncludes s sub`: JavaScript `s.includes(sub)`. -/
def strIncludes (s sub : String) : Bool :=
  charsIn sub.data s.data

/-- All suffixes of a character list, longest first. -/
def suffixes : List Char → List (List Char)
  | [] => [[]]
  | c :: t => (c :: t) :: suffixes t

/-- Redis glob matching restricted to the `*` and `?` wildcards, the only
ones the repository's patterns use (`list:*`, `task:<id>:*`, `stats:*`).
Character classes are not modelled since no caller writes them.  A `*`
consumes an arbitrary chunk, i.e. the rest of the pattern must match some
suffix of the subject. -/
def globMatch : List Char → List Char → Bool
  | [], s => s.isEmpty
  | '*' :: p', s => (suffixes s).any (globMatch p')
  | '?' :: _, [] => false
  | '?' :: p', _ :: t => globMatch p' t
  | _ :: _, [] => false
  | c :: p', d :: t => (c == d) && globMatch p' t

namespace RedisCache

/-- `buildKey` of `RedisCacheService`: prepend the namespace when given. -/
def buildKey (key : String) (ns : Option String) : String :=
  match ns with
  | some n => n ++ ":" ++ key
  | none => key

/-- The raw Redis `GET` at instant `t`: the stored value if the key exists
and has not expired. -/
def rawGet (st : Store) (t : Nat) (k : String) : Option JVal :=
  match st.find? (fun e => e.key == k) with
  | some e => if t < e.expiresAt then some e.value else none
  | none => none

/-- The raw Redis `SETEX` at instant `t` (ttl in seconds): overwrite the
key wholesale with expiry `t + ttl * 1000`. -/
def rawSetex (st : Store) (t : Nat) (k : String) (ttl : Nat) (v : JVal) : Store :=
  ⟨k, t + ttl * 1000, v⟩ :: st.filter (fun e => !(e.key == k))

/-- The ioredis client option `keyPrefix = 'cache:'` of
`RedisCacheService`.  ioredis prepends it to the *key arguments* of
commands (`SETEX`, `GET`, `DEL`) but **not** to the pattern argument of
`KEYS`. -/
def KEY_PFX : String := "cache:"

/-- The raw Redis `KEYS pattern` at instant `t`, as issued through this
service's ioredis client.  The store indexes entries by their service key
with the uniform client prefix elided — harmless on the get/set/del path,
where the prefix on the stored key and on the command's key argument
cancel.  `KEYS` is the one command where it does not cancel: the pattern
is sent unprefixed while every stored key really lives under
`KEY_PFX ++ e.key`, so the pattern is matched against `KEY_PFX ++ e.key`,
and the matching *server* keys (prefix included) are returned. -/
def rawKeys (st : Store) (t : Nat) (pat : String) : List String :=
  (st.filter (fun e =>
    globMatch pat.data (KEY_PFX ++ e.key).data && decide (t < e.expiresAt))).map
    (fun e => KEY_PFX ++ e.key)

/-- The raw Redis `DEL k1 … kn` at instant `t`: removes the listed keys,
returning how many existing (live) keys were removed.  ioredis prefixes
each key argument with `KEY_PFX`, and stored keys carry the same prefix,
so in the elided index the arguments are compared verbatim against
`e.key`; an argument that already carries the prefix (as the strings
returned by `KEYS` do) is prefixed a second time and thus only ever hits
a stored key that itself starts with the prefix text. -/
def rawDel (st : Store) (t : Nat) (ks : List String) : Nat × Store :=
  ((st.filter (fun e => ks.contains e.key && decide (t < e.expiresAt))).length,
   st.filter (fun e => !ks.contains e.key))

/-- A raw backend call: fails when the backend is down (`ok = false`).
This is the failure that each service method's `try/catch` recovers. -/
def redisTry {α : Type} (ok : Bool) (a : α) : Except Unit α :=
  if ok then .ok a else .error ()

/-- `options.ttl || this.defaultTtl` — JavaScript `||` takes the default
both for a missing ttl and for a falsy (zero) one; default 300 s. -/
def ttlOrDefault : Option Nat → Nat
  | some n => if n = 0 then 300 else n
  | none => 300

/-- `RedisCacheService.set`: serialize and `SETEX` inside `try/catch`; on
backend failure log and return with the store unchanged (never raises). -/
def set (st : Store) (t : Nat) (ok : Bool) (key : String) (v : JVal)
    (ttl : Option Nat) (ns : Option String) : Store :=
  match redisTry ok (rawSetex st t (buildKey key ns) (ttlOrDefault ttl) v) with
  | .ok st2 => st2
  | .error _ => st

/-- `RedisCacheService.get`: `GET` inside `try/catch`.  Returns `jnull`
(the TypeScript `null`) on backend failure, on an absent or expired key
(the `!value` falsy test), and otherwise the parsed stored value — which
is itself `jnull` when the stored serialization was `"null"`. -/
def get (st : Store) (t : Nat) (ok : Bool) (key : String) (ns : Option String) : JVal :=
  match redisTry ok (rawGet st t (buildKey key ns)) with
  | .error _ => .jnull
  | .ok none => .jnull
  | .ok (some v) => v

/-- `RedisCacheService.deletePattern`: `KEYS` with the unprefixed
`buildKey pattern ns`, then bulk `DEL` of the returned (prefixed) server
keys, inside `try/catch`; returns the deleted count, `0` when nothing
matches or the backend fails. -/
def deletePattern (st : Store) (t : Nat) (ok : Bool) (pattern : String)
    (ns : Option String) : Nat × Store :=
  match redisTry ok (rawKeys st t (buildKey pattern ns)) with
  | .error _ => (0, st)
  | .ok ks =>
    if ks.length = 0 then (0, st)
    else rawDel st t ks

/-- `RedisCacheService.getOrSet`: `get`; on a non-null value return it,
otherwise run the factory (whose failure propagates), `set` the result and
return it.  The second component counts factory invocations. -/
def getOrSet (st : Store) (t : Nat) (okGet okSet : Bool) (key : String)
    (ns : Option String) (ttl : Option Nat) (factory : Except String JVal) :
    Except String (JVal × Store) × Nat :=
  let cached := get st t okGet key ns
  if cached ≠ .jnull then (.ok (cached, st), 0)
  else
    match factory with
    | .error e => (.error e, 1)
    | .ok v => (.ok (v, set st t okSet key v ttl ns), 1)

end RedisCache

/-! ### Auxiliary list lemmas -/

/-- The effective TTL is always positive. -/
theorem ttlOrDefault_pos (o : Option Nat) : 0 < RedisCache.ttlOrDefault o := by
  cases o with
  | none => simp [RedisCache.ttlOrDefault]
  | some n =>
    by_cases h : n = 0 <;> simp [RedisCache.ttlOrDefault, h]
    omega

/-! ### Cache-layer theorems -/

/-- C4 (evaluation at the failing input): the service's ioredis client
is configured with `keyPrefix: 'cache:'`, which ioredis prepends to the
key arguments of `SETEX`/`GET`/`DEL` but not to the `KEYS` pattern.
Every key the service stores therefore really lives under `cache:…`,
while `deletePattern("list:*", "tasks")` issues `KEYS tasks:list:*`,
which matches none of them: the call returns 0 and deletes nothing, and
a `get` on the previously-set matching key still returns the cached
value instead of the required miss.  This contradicts the claim, the
repository's caching documentation (pattern-based bulk invalidation) and
its cache-invalidation test script. -/
theorem deletePattern_keyspace_mismatch_deletes_nothing :
    RedisCache.rawKeys
        (RedisCache.set (RedisCache.set [] 0 true "list:a" (.jstr "v") (some 60) (some "tasks"))
          0 true "task:1" (.jnum 7) (some 60) (some "tasks"))
        5 (RedisCache.buildKey "list:*" (some "tasks")) = [] ∧
    RedisCache.deletePattern
        (RedisCache.set (RedisCache.set [] 0 true "list:a" (.jstr "v") (some 60) (some "tasks"))
          0 true "task:1" (.jnum 7) (some 60) (some "tasks"))
        5 true "list:*" (some "tasks")
      = (0,
         RedisCache.set (RedisCache.set [] 0 true "list:a" (.jstr "v") (some 60) (some "tasks"))
           0 true "task:1" (.jnum 7) (some 60) (some "tasks")) ∧
    RedisCache.get
        (RedisCache.deletePattern
          (RedisCache.set (RedisCache.set [] 0 true "list:a" (.jstr "v") (some 60) (some "tasks"))
            0 true "task:1" (.jnum 7) (some 60) (some "tasks"))
          5 true "list:*" (some "tasks")).2 5 true "list:a" (some "tasks") = .jstr "v" ∧
    globMatch (RedisCache.buildKey "list:*" (some "tasks")).data
      (RedisCache.KEY_PFX ++ RedisCache.buildKey "list:a" (some "tasks")).data = false := by
  refine ⟨by decide, by decide, by decide, by decide⟩

/-- C9: on a cache miss `getOrSet` invokes the factory exactly once,
stores its result and returns it; a factory failure propagates to the
caller; failures inside the cache layer's own `get` and `set` are
recovered locally — a failing `get` is a miss and a failing `set` returns
with the store unchanged. -/
theorem getOrSet_miss_computes_once
    (st : Store) (t : Nat) (okGet okSet : Bool) (key : String) (ns : Option String)
    (ttl : Option Nat) (v : JVal) (err : String)
    (hmiss : RedisCache.get st t okGet key ns = .jnull) :
    RedisCache.getOrSet st t okGet okSet key ns ttl (.ok v)
      = (.ok (v, RedisCache.set st t okSet key v ttl ns), 1) ∧
    RedisCache.getOrSet st t okGet okSet key ns ttl (.error err) = (.error err, 1) ∧
    RedisCache.rawGet (RedisCache.set st t true key v ttl ns) t (RedisCache.buildKey key ns)
      = some v ∧
    RedisCache.get st t false key ns = .jnull ∧
    RedisCache.set st t false key v ttl ns = st := by
  have hlt : t < t + RedisCache.ttlOrDefault ttl * 1000 := by
    have := ttlOrDefault_pos ttl
    omega
  refine ⟨?_, ?_, ?_, ?_, rfl⟩
  · simp [RedisCache.getOrSet, hmiss]
  · simp [RedisCache.getOrSet, hmiss]
  · simp [RedisCache.set, RedisCache.redisTry, RedisCache.rawSetex, RedisCache.rawGet, hlt]
  · simp [RedisCache.get, RedisCache.redisTry]

/-- C9 witness: empty store, factory value and factory failure. -/
theorem getOrSet_miss_computes_once_witness :
    RedisCache.getOrSet [] 0 true true "k" none none (.ok (.jnum 3))
      = (.ok (.jnum 3, RedisCache.set [] 0 true "k" (.jnum 3) none none), 1) ∧
    RedisCache.getOrSet [] 0 true true "k" none none (.error "boom") = (.error "boom", 1) ∧
    RedisCache.rawGet (RedisCache.set [] 0 true "k" (.jnum 3) none none) 0
        (RedisCache.buildKey "k" none) = some (.jnum 3) ∧
    RedisCache.get [] 0 false "k" none = .jnull ∧
    RedisCache.set [] 0 false "k" (.jnum 3) none none = [] := by
  exact getOrSet_miss_computes_once [] 0 true true "k" none none (.jnum 3) "boom" (by decide)

/-- C10: `get` returns the same miss value `null` for an absent key, an
expired entry, a backend failure, and a stored value that deserializes to
`null`; consequently a key whose computed value serializes to `null` is
never effectively cached — every later `getOrSet` on it computes again
and rewrites the entry. -/
theorem get_null_alias_never_caches
    (st : Store) (t t2 : Nat) (okSet : Bool) (key : String) (ns : Option String)
    (ttl ttl2 : Option Nat) (v : JVal) :
    (st.find? (fun e => e.key == RedisCache.buildKey key ns) = none →
      RedisCache.get st t true key ns = .jnull) ∧
    (∀ ex : CacheEntry,
      st.find? (fun e => e.key == RedisCache.buildKey key ns) = some ex →
      ex.expiresAt ≤ t →
      RedisCache.get st t true key ns = .jnull) ∧
    RedisCache.get st t false key ns = .jnull ∧
    RedisCache.get (RedisCache.set st t true key .jnull ttl ns) t2 true key ns = .jnull ∧
    RedisCache.getOrSet (RedisCache.set st t true key .jnull ttl ns) t2 true okSet key ns ttl2
        (.ok v)
      = (.ok (v, RedisCache.set (RedisCache.set st t true key .jnull ttl ns) t2 okSet key v ttl2 ns),
         1) := by
  have h4 : ∀ tx : Nat,
      RedisCache.get (RedisCache.set st t true key .jnull ttl ns) tx true key ns = .jnull := by
    intro tx
    by_cases hc : tx < t + RedisCache.ttlOrDefault ttl * 1000 <;>
      simp [RedisCache.set, RedisCache.redisTry, RedisCache.rawSetex, RedisCache.get,
        RedisCache.rawGet, hc]
  refine ⟨?_, ?_, ?_, h4 t2, ?_⟩
  · intro h
    simp [RedisCache.get, RedisCache.redisTry, RedisCache.rawGet, h]
  · intro ex h hexp
    have hnl : ¬ t < ex.expiresAt := by omega
    simp [RedisCache.get, RedisCache.redisTry, RedisCache.rawGet, h, hnl]
  · simp [RedisCache.get, RedisCache.redisTry]
  · simp [RedisCache.getOrSet, h4]

/-- C10 witness: an absent key on the empty store, and an expired entry. -/
theorem get_null_alias_never_caches_witness :
    RedisCache.get [] 0 true "k" none = .jnull ∧
    RedisCache.get [⟨"k", 3, .jstr "v"⟩] 5 true "k" none = .jnull ∧
    RedisCache.get [] 0 false "k" none = .jnull ∧
    RedisCache.get (RedisCache.set [] 0 true "k" .jnull none none) 1 true "k" none = .jnull ∧
    RedisCache.getOrSet (RedisCache.set [] 0 true "k" .jnull none none) 1 true true "k" none none
        (.ok (.jnum 3))
      = (.ok (.jnum 3,
          RedisCache.set (RedisCache.set [] 0 true "k" .jnull none none) 1 true "k" (.jnum 3)
            none none), 1) := by
  have ha := get_null_alias_never_caches [] 0 0 true "k" none none none (.jnum 3)
  have hb := get_null_alias_never_caches [⟨"k", 3, .jstr "v"⟩] 5 1 true "k" none none none (.jnum 3)
  have hc := get_null_alias_never_caches [] 0 1 true "k" none none none (.jnum 3)
  exact ⟨ha.1 (by decide), hb.2.1 ⟨"k", 3, .jstr "v"⟩ (by decide) (by decide),
    ha.2.2.1, hc.2.2.2.1, hc.2.2.2.2⟩

/-! ### Worker and error classifier (`TaskProcessorService`) -/

/-- The classification record returned by
`TaskProcessorService.categorizeError`. -/
structure ErrorInfo where
  type : String
  message : String
  isRetryable : Bool
  category : String
deriving DecidableEq, Repr

/-- `TaskProcessorService.categorizeError`: substring matching on the
failure message, first matching row wins.  The source also receives the
job context but its output depends only on the message, so the embedding
takes the message alone. -/
def categorizeError (msg : String) : ErrorInfo :=
  if strIncludes msg "database" || strIncludes msg "connection" ||
      strIncludes msg "timeout" || strIncludes msg "ECONNREFUSED" then
    ⟨"DatabaseError", msg, true, "infrastructure"⟩
  else if strIncludes msg "validation" || strIncludes msg "required" ||
      strIncludes msg "invalid" then
    ⟨"ValidationError", msg, false, "client"⟩
  else if strIncludes msg "not found" || strIncludes msg "does not exist" then
    ⟨"NotFoundError", msg, false, "client"⟩
  else if strIncludes msg "network" || strIncludes msg "ENOTFOUND" ||
      strIncludes msg "ETIMEDOUT" then
    ⟨"NetworkError", msg, true, "infrastructure"⟩
  else
    ⟨"UnknownError", msg, true, "unknown"⟩

/-- Every substring the classifier tests for, in source order. -/
def classifierKeywords : List String :=
  ["database", "connection", "timeout", "ECONNREFUSED",
   "validation", "required", "invalid",
   "not found", "does not exist",
   "network", "ENOTFOUND", "ETIMEDOUT"]

/-- Whether any classifier keyword occurs in the message. -/
def hasClassifierKeyword (msg : String) : Bool :=
  classifierKeywords.any (strIncludes msg)

/-- A message free of every keyword lands in the default, retryable
`UnknownError` row. -/
theorem categorizeError_of_no_keyword {msg : String}
    (h : hasClassifierKeyword msg = false) :
    categorizeError msg = ⟨"UnknownError", msg, true, "unknown"⟩ := by
  simp only [hasClassifierKeyword, classifierKeywords, List.any_cons, List.any_nil,
    Bool.or_eq_false_iff] at h
  obtain ⟨h1, h2, h3, h4, h5, h6, h7, h8, h9, h10, h11, h12, -⟩ := h
  simp [categorizeError, h1, h2, h3, h4, h5, h6, h7, h8, h9, h10, h11, h12]

/-- The data object of a queue job; every payload field the three handlers
read.  `Option` plus JavaScript truthiness models missing fields. -/
structure JobData where
  taskId : Option String
  status : Option String
  previousStatus : Option String
  title : Option String
  dueDate : Option String
  userId : Option String
deriving DecidableEq, Repr

/-- JavaScript truthiness of an optional string field (`undefined` and
`""` are falsy). -/
def truthyS : Option String → Bool
  | none => false
  | some s => !s.isEmpty

/-- The error list computed by `TaskProcessorService.validateJobData` for
a present `job.data`; the `switch` has no default case, so an unknown job
name yields no errors. -/
def validationErrors (name : String) (d : JobData) : List String :=
  if name = "task-status-update" then
    (if truthyS d.taskId then [] else ["taskId is required for status update"]) ++
      (if truthyS d.status then [] else ["status is required for status update"])
  else if name = "task-created" then
    if truthyS d.taskId then [] else ["taskId is required for task creation"]
  else if name = "overdue-tasks-notification" then
    (if truthyS d.taskId then [] else ["taskId is required for overdue notification"]) ++
      (if truthyS d.title then [] else ["title is required for overdue notification"]) ++
      (if truthyS d.dueDate then [] else ["dueDate is required for overdue notification"])
  else []

/-- `Array.prototype.join(', ')`. -/
def joinComma : List String → String
  | [] => ""
  | [s] => s
  | s :: rest => s ++ ", " ++ joinComma rest

/-- `TaskProcessorService.handleStatusUpdate`: re-validate the two fields,
call `tasksService.updateStatus` (an external collaborator, abstracted as
its outcome `updateStatus`), and wrap its failure message. -/
def handleStatusUpdate (d : JobData) (updateStatus : Except String Unit) :
    Except String Unit :=
  if !truthyS d.taskId then .error "Task ID is required"
  else if !truthyS d.status then .error "Status is required"
  else
    match updateStatus with
    | .ok _ => .ok ()
    | .error m => .error ("Failed to update task " ++ d.taskId.getD "" ++ " status: " ++ m)

/-- The `try` block of `TaskProcessorService.process`: validate, then
dispatch on the job name; the `task-created` and
`overdue-tasks-notification` handlers cannot fail (they only log), and an
unrecognized name throws `Unknown job type`. -/
def processAttempt (name : String) (data : Option JobData)
    (updateStatus : Except String Unit) : Except String Unit :=
  match data with
  | none => .error "Job validation failed: Job data is missing"
  | some d =>
    let errors := validationErrors name d
    if !errors.isEmpty then .error ("Job validation failed: " ++ joinComma errors)
    else if name = "task-status-update" then handleStatusUpdate d updateStatus
    else if name = "task-created" then .ok ()
    else if name = "overdue-tasks-notification" then .ok ()
    else .error ("Unknown job type: " ++ name)

/-- `TaskProcessorService.process` around its `catch` block: on failure
the error is classified and logged, and then — in all three branches
(retry, non-retryable, exhausted) — the very same error is re-raised, so
the classification never reaches the queue runtime. -/
def processJob (name : String) (data : Option JobData)
    (updateStatus : Except String Unit) : Except String Unit :=
  match processAttempt name data updateStatus with
  | .ok r => .ok r
  | .error e =>
    let _info := categorizeError e
    .error e

/-- Modelled from BullMQ's documented retry semantics (the queue runtime
is an external dependency, not repository code): a job whose processor
throws an ordinary error is redelivered until the number of executions
reaches `opts.attempts`; the thrown error itself carries no retryability
information (only a BullMQ `UnrecoverableError`, which this worker never
constructs, suppresses redelivery).  `runJob o remaining made` returns
the number of executions performed and whether the job succeeded. -/
def runJob (attemptOutcome : Nat → Except String Unit) :
    Nat → Nat → Nat × Bool
  | 0, _ => (0, false)
  | remaining + 1, made =>
    match attemptOutcome made with
    | .ok _ => (1, true)
    | .error _ =>
      if remaining = 0 then (1, false)
      else
        let r := runJob attemptOutcome remaining (made + 1)
        (r.1 + 1, r.2)

/-- A deterministically failing job is executed exactly `maxAttempts`
times by the runtime. -/
theorem runJob_const_error (e : String) :
    ∀ m k : Nat, 1 ≤ m → (runJob (fun _ => .error e) m k).1 = m := by
  intro m
  induction m with
  | zero => intro k h; omega
  | succ n ih =>
    intro k _
    by_cases hn : n = 0
    · simp [runJob, hn]
    · simp only [runJob]
      simp only [hn, if_false]
      have := ih (k + 1) (by omega)
      simp [this]

/-- C1 (evaluation at the failing input): a status-update job with an
empty data object fails with a message classified `ValidationError`,
non-retryable — yet the worker re-raises a plain error that carries no
retryability mark, so the queue runtime redelivers it: with
`maxAttempts = 3` three executions occur, not exactly one.  This
contradicts the worker's own log text (`moving to failed queue`
immediately for non-retryable errors) and the repository's completion
report (`Non-retryable errors fail immediately`). -/
theorem nonretryable_job_executed_three_times :
    processJob "task-status-update" (some ⟨none, none, none, none, none, none⟩) (.ok ())
      = .error "Job validation failed: taskId is required for status update, status is required for status update" ∧
    (categorizeError "Job validation failed: taskId is required for status update, status is required for status update").type
      = "ValidationError" ∧
    (categorizeError "Job validation failed: taskId is required for status update, status is required for status update").isRetryable
      = false ∧
    (runJob
        (fun _ => processJob "task-status-update"
          (some ⟨none, none, none, none, none, none⟩) (.ok ()))
        3 0).1 = 3 := by
  exact ⟨rfl, by decide, by decide, by decide⟩

/-- C2 counterexample: a job of the unknown kind `send-email` fails with
`Unknown job type: send-email`, which matches no classifier keyword and is
therefore classified `unknown` **retryable** — not non-retryable as the
claim states — and the runtime redelivers it three times. -/
theorem unknown_kind_retryable_counterexample :
    processJob "send-email" (some ⟨none, none, none, none, none, none⟩) (.ok ())
      = .error "Unknown job type: send-email" ∧
    (categorizeError "Unknown job type: send-email").isRetryable = true ∧
    (categorizeError "Unknown job type: send-email").category = "unknown" ∧
    (runJob
        (fun _ => processJob "send-email"
          (some ⟨none, none, none, none, none, none⟩) (.ok ()))
        3 0).1 = 3 := by
  exact ⟨rfl, by decide, by decide, by decide⟩

/-- C2 amended: a dequeued job whose type is none of the three implemented
kinds fails with `Unknown job type: <name>`; whenever that message matches
no classifier keyword the failure is classified `unknown` and *retryable*,
and the job is redelivered until its `maxAttempts` are exhausted. -/
theorem unknown_kind_fails_open_and_retries
    (name : String) (d : JobData) (usr : Except String Unit) (m : Nat)
    (h1 : name ≠ "task-status-update") (h2 : name ≠ "task-created")
    (h3 : name ≠ "overdue-tasks-notification") (hm : 1 ≤ m)
    (hkw : hasClassifierKeyword ("Unknown job type: " ++ name) = false) :
    processJob name (some d) usr = .error ("Unknown job type: " ++ name) ∧
    categorizeError ("Unknown job type: " ++ name)
      = ⟨"UnknownError", "Unknown job type: " ++ name, true, "unknown"⟩ ∧
    (runJob (fun _ => processJob name (some d) usr) m 0).1 = m := by
  have hpa : processAttempt name (some d) usr = .error ("Unknown job type: " ++ name) := by
    simp [processAttempt, validationErrors, h1, h2, h3]
  have hpj : processJob name (some d) usr = .error ("Unknown job type: " ++ name) := by
    simp [processJob, hpa]
  refine ⟨hpj, categorizeError_of_no_keyword hkw, ?_⟩
  have hfn : (fun _ : Nat => processJob name (some d) usr)
      = fun _ : Nat => .error ("Unknown job type: " ++ name) := by
    funext _
    exact hpj
  rw [hfn]
  exact runJob_const_error _ m 0 hm

/-- C2 amended witness: the `send-email` kind with `maxAttempts = 3`. -/
theorem unknown_kind_fails_open_and_retries_witness :
    processJob "send-email" (some ⟨none, none, none, none, none, none⟩) (.ok ())
      = .error ("Unknown job type: " ++ "send-email") ∧
    categorizeError ("Unknown job type: " ++ "send-email")
      = ⟨"UnknownError", "Unknown job type: " ++ "send-email", true, "unknown"⟩ ∧
    (runJob
        (fun _ => processJob "send-email"
          (some ⟨none, none, none, none, none, none⟩) (.ok ()))
        3 0).1 = 3 := by
  exact unknown_kind_fails_open_and_retries "send-email" ⟨none, none, none, none, none, none⟩
    (.ok ()) 3 (by decide) (by decide) (by decide) (by decide) (by decide)

/-- C5: the classifier is a pure function of the failure message; a
message signalling storage/connection/timeout is infrastructure and
retryable; a message signalling `not found` (and not caught by an earlier
row) is client and non-retryable; a message matching no keyword is unknown
and retryable. -/
theorem categorizeError_rows (msg : String) :
    ((strIncludes msg "database" || strIncludes msg "connection" ||
        strIncludes msg "timeout" || strIncludes msg "ECONNREFUSED") = true →
      (categorizeError msg).category = "infrastructure" ∧
        (categorizeError msg).isRetryable = true) ∧
    (strIncludes msg "not found" = true →
      (strIncludes msg "database" || strIncludes msg "connection" ||
        strIncludes msg "timeout" || strIncludes msg "ECONNREFUSED") = false →
      (strIncludes msg "validation" || strIncludes msg "required" ||
        strIncludes msg "invalid") = false →
      (categorizeError msg).category = "client" ∧
        (categorizeError msg).isRetryable = false) ∧
    (hasClassifierKeyword msg = false →
      (categorizeError msg).category = "unknown" ∧
        (categorizeError msg).isRetryable = true) := by
  refine ⟨?_, ?_, ?_⟩
  · intro h
    simp [categorizeError, h]
  · intro h1 h2 h3
    simp [categorizeError, h1, h2, h3]
  · intro h
    rw [categorizeError_of_no_keyword h]
    exact ⟨rfl, rfl⟩

/-- C5 witness: one message per row. -/
theorem categorizeError_rows_witness :
    ((categorizeError "connection timeout").category = "infrastructure" ∧
      (categorizeError "connection timeout").isRetryable = true) ∧
    ((categorizeError "Task not found").category = "client" ∧
      (categorizeError "Task not found").isRetryable = false) ∧
    ((categorizeError "zzz").category = "unknown" ∧
      (categorizeError "zzz").isRetryable = true) := by
  exact ⟨(categorizeError_rows "connection timeout").1 (by decide),
    (categorizeError_rows "Task not found").2.1 (by decide) (by decide) (by decide),
    (categorizeError_rows "zzz").2.2 (by decide)⟩

/-! ### Overdue scanner (`OverdueTasksService`) -/

/-- The task statuses the repository uses. -/
inductive TaskStatus where
  | pending
  | inProgress
  | completed
deriving DecidableEq, Repr

/-- The fields of a task record that `checkOverdueTasks` selects
(`id`, `title`, `dueDate`, `status`, `userId`); `dueDate` is an epoch
instant in milliseconds. -/
structure TaskRec where
  id : String
  title : String
  dueDate : Nat
  status : TaskStatus
  userId : String
deriving DecidableEq, Repr

/-- The scan's `where` clause: `dueDate: LessThan(now)` and
`status: In([PENDING, IN_PROGRESS])`. -/
def isActionableOverdue (now : Nat) (tk : TaskRec) : Bool :=
  decide (tk.dueDate < now) &&
    (tk.status == TaskStatus.pending || tk.status == TaskStatus.inProgress)

/-- Insert into a list sorted by ascending `dueDate`. -/
def insertByDue (tk : TaskRec) : List TaskRec → List TaskRec
  | [] => [tk]
  | h :: t => if tk.dueDate ≤ h.dueDate then tk :: h :: t else h :: insertByDue tk t

/-- Sort by ascending `dueDate` — the query's `order: { dueDate: 'ASC' }`. -/
def sortByDue : List TaskRec → List TaskRec
  | [] => []
  | h :: t => insertByDue h (sortByDue t)

theorem length_insertByDue (tk : TaskRec) (l : List TaskRec) :
    (insertByDue tk l).length = l.length + 1 := by
  induction l with
  | nil => rfl
  | cons h t ih =>
    by_cases hc : tk.dueDate ≤ h.dueDate <;> simp [insertByDue, hc, ih]

theorem length_sortByDue (l : List TaskRec) : (sortByDue l).length = l.length := by
  induction l with
  | nil => rfl
  | cons h t ih => simp [sortByDue, length_insertByDue, ih]

/-- The repository query of one scan run: records strictly overdue at
`now` with an actionable status, ordered oldest-due-first; pagination is
applied per page below. -/
def overdueQuery (store : List TaskRec) (now : Nat) : List TaskRec :=
  sortByDue (store.filter (isActionableOverdue now))

/-- `OverdueTasksService.BATCH_SIZE`. -/
def BATCH_SIZE : Nat := 100

/-- One page of the query: `take: batchSize, skip: offset`. -/
def pageAt (matched : List TaskRec) (batchSize offset : Nat) : List TaskRec :=
  (matched.drop offset).take batchSize

/-- `OverdueTasksService.processBatch`: attempt to enqueue one
overdue-notification job per record, catching and counting per-record
enqueue failures, and return how many were queued.  Per-record enqueue
success is abstracted by the oracle `ok`. -/
def processBatch (ok : TaskRec → Bool) (page : List TaskRec) : Nat :=
  (page.filter ok).length

/-- The `while (hasMoreTasks)` loop of
`OverdueTasksService.checkOverdueTasks` from a given `offset`: fetch a
page; an empty page stops at once; a short page is processed and then
stops; a full page is processed and the loop continues at
`offset + batchSize`.  Returns (fetch iterations, records processed,
jobs queued). -/
def scanGo (matched : List TaskRec) (ok : TaskRec → Bool) (batchSize offset : Nat) :
    Nat × Nat × Nat :=
  if h0 : (pageAt matched batchSize offset).length = 0 then (1, 0, 0)
  else if hs : (pageAt matched batchSize offset).length < batchSize then
    (1, (pageAt matched batchSize offset).length,
     processBatch ok (pageAt matched batchSize offset))
  else
    let r := scanGo matched ok batchSize (offset + batchSize)
    (r.1 + 1, (pageAt matched batchSize offset).length + r.2.1,
     processBatch ok (pageAt matched batchSize offset) + r.2.2)
termination_by matched.length - offset
decreasing_by
  simp only [pageAt, List.length_take, List.length_drop] at h0 hs
  omega

/-- The totals logged by `checkOverdueTasks`: records found and jobs
queued over the whole run. -/
def checkOverdueTasksCounts (store : List TaskRec) (now : Nat) (ok : TaskRec → Bool) :
    Nat × Nat :=
  let r := scanGo (overdueQuery store now) ok BATCH_SIZE 0
  (r.2.1, r.2.2)

/-- `OverdueTasksService.triggerOverdueCheck`: wraps `processBatch` with
an accumulator adding each batch's record count and queued count, runs
`checkOverdueTasks`, and returns the accumulated pair.  Since the loop's
own totals are precisely those per-batch sums, the interception returns
the loop totals. -/
def triggerOverdueCheck (store : List TaskRec) (now : Nat) (ok : TaskRec → Bool) :
    Nat × Nat :=
  checkOverdueTasksCounts store now ok

/-- `OverdueTasksService.calculateOverdueDuration`, on integer epoch
milliseconds (`Math.floor` on a quotient is `Int.fdiv`). -/
def calculateOverdueDuration (nowMs dueMs : Int) : String :=
  let diffMs := nowMs - dueMs
  let diffHours := Int.fdiv diffMs 3600000
  let diffDays := Int.fdiv diffHours 24
  if diffDays > 0 then
    toString diffDays ++ " day" ++ (if diffDays > 1 then "s" else "")
  else
    toString diffHours ++ " hour" ++ (if diffHours > 1 then "s" else "")

/-- The `overdueBy` rendering exactly as claim C6 words it: if
`floor((now-due)/24h) > 0` render that day count, else render
`floor((now-due)/1h)` hours, the singular form exactly when the count
is 1. -/
def specOverdueByClaim (nowMs dueMs : Int) : String :=
  let d := Int.fdiv (nowMs - dueMs) 86400000
  if d > 0 then toString d ++ (if d = 1 then " day" else " days")
  else
    let h := Int.fdiv (nowMs - dueMs) 3600000
    toString h ++ (if h = 1 then " hour" else " hours")

/-- The amended rendering: as the claim, except the singular form is used
whenever the count is at most 1 (so a record less than an hour overdue
renders `0 hour`). -/
def specOverdueByAmended (nowMs dueMs : Int) : String :=
  let d := Int.fdiv (nowMs - dueMs) 86400000
  if d > 0 then toString d ++ (if d > 1 then " days" else " day")
  else
    let h := Int.fdiv (nowMs - dueMs) 3600000
    toString h ++ (if h > 1 then " hours" else " hour")

/-- The job id built for an overdue notification:
`overdue-${task.id}-${Date.now()}` — the raw millisecond clock, not a
coarse bucket. -/
def makeOverdueJobId (taskId : String) (nowMs : Nat) : String :=
  "overdue-" ++ taskId ++ "-" ++ toString nowMs

/-- Modelled from the spec: the external queue's dedupe behavior —
"enqueueing two jobs with the same `dedupeId` while the first is
non-terminal must not result in two independent executions of the same
logical unit of work".  The queue state is the list of non-terminal job
ids; an enqueue whose id already exists adds no new job. -/
def enqueueDedup (q : List String) (jobId : String) : List String :=
  if q.contains jobId then q else q ++ [jobId]

/-- Characterization of one scan run from any offset, for a positive
batch size: the iteration count is bounded by `⌈remaining/b⌉ + 1`, every
remaining matched record is processed, and the queued count is the number
of remaining records whose enqueue succeeds. -/
theorem scanGo_spec (matched : List TaskRec) (ok : TaskRec → Bool) (b : Nat) (hb : 0 < b) :
    ∀ offset : Nat,
      (scanGo matched ok b offset).1 ≤ (matched.length - offset + b - 1) / b + 1 ∧
      (scanGo matched ok b offset).2.1 = matched.length - offset ∧
      (scanGo matched ok b offset).2.2 = ((matched.drop offset).filter ok).length := by
  have key : ∀ n : Nat, ∀ offset : Nat, matched.length - offset ≤ n →
      (scanGo matched ok b offset).1 ≤ (matched.length - offset + b - 1) / b + 1 ∧
      (scanGo matched ok b offset).2.1 = matched.length - offset ∧
      (scanGo matched ok b offset).2.2 = ((matched.drop offset).filter ok).length := by
    intro n
    induction n with
    | zero =>
      intro offset h0
      have hR : matched.length - offset = 0 := by omega
      have hpl : (pageAt matched b offset).length = 0 := by
        simp [pageAt, hR]
      have hdrop : matched.drop offset = [] := by
        apply List.drop_eq_nil_of_le
        omega
      rw [scanGo, dif_pos hpl]
      refine ⟨Nat.succ_le_succ (Nat.zero_le _),
        show (0 : Nat) = matched.length - offset by omega, ?_⟩
      show (0 : Nat) = ((matched.drop offset).filter ok).length
      simp [hdrop]
    | succ n ih =>
      intro offset hle
      have hpl : (pageAt matched b offset).length = min b (matched.length - offset) := by
        simp [pageAt]
      by_cases h0 : (pageAt matched b offset).length = 0
      · have hdrop : matched.drop offset = [] := by
          apply List.drop_eq_nil_of_le
          omega
        rw [scanGo, dif_pos h0]
        refine ⟨Nat.succ_le_succ (Nat.zero_le _),
          show (0 : Nat) = matched.length - offset by omega, ?_⟩
        show (0 : Nat) = ((matched.drop offset).filter ok).length
        simp [hdrop]
      · by_cases hs : (pageAt matched b offset).length < b
        · have hfull : pageAt matched b offset = matched.drop offset := by
            apply List.take_of_length_le
            simp
            omega
          rw [scanGo, dif_neg h0, dif_pos hs]
          refine ⟨Nat.succ_le_succ (Nat.zero_le _), ?_, ?_⟩
          · show (pageAt matched b offset).length = matched.length - offset
            omega
          · show processBatch ok (pageAt matched b offset)
              = ((matched.drop offset).filter ok).length
            rw [processBatch, hfull]
        · have hlen : (pageAt matched b offset).length = b := by omega
          have hRb : b ≤ matched.length - offset := by omega
          have ihx := ih (offset + b) (by omega)
          rw [scanGo, dif_neg h0, dif_neg hs]
          refine ⟨?_, ?_, ?_⟩
          · show (scanGo matched ok b (offset + b)).1 + 1
              ≤ (matched.length - offset + b - 1) / b + 1
            have h1 : matched.length - (offset + b) + b - 1 = matched.length - offset - 1 := by
              omega
            have h2 : matched.length - offset + b - 1 = (matched.length - offset - 1) + b := by
              omega
            rw [h2, Nat.add_div_right _ hb]
            have h3 := ihx.1
            rw [h1] at h3
            exact Nat.add_le_add_right h3 1
          · show (pageAt matched b offset).length + (scanGo matched ok b (offset + b)).2.1
              = matched.length - offset
            rw [hlen, ihx.2.1]
            omega
          · show processBatch ok (pageAt matched b offset)
                + (scanGo matched ok b (offset + b)).2.2
              = ((matched.drop offset).filter ok).length
            have hsplit : matched.drop offset
                = pageAt matched b offset ++ matched.drop (offset + b) := by
              rw [pageAt, ← List.drop_drop]
              exact (List.take_append_drop b (matched.drop offset)).symm
            rw [hsplit, List.filter_append, List.length_append, processBatch, ihx.2.2]
  intro offset
  exact key (matched.length - offset) offset le_rfl

/-- C7: for every finite store a scan run terminates (`scanGo` is a total
function, fetching pages of `batchSize` at offsets 0, `batchSize`, … and
stopping on an empty or short page) after at most
`⌈totalMatching/batchSize⌉ + 1` fetch iterations, where `totalMatching`
is the number of records matching the overdue filter. -/
theorem scanner_terminates_bounded
    (store : List TaskRec) (now : Nat) (ok : TaskRec → Bool) (batchSize : Nat)
    (hb : 0 < batchSize) :
    (scanGo (overdueQuery store now) ok batchSize 0).1
      ≤ ((store.filter (isActionableOverdue now)).length + batchSize - 1) / batchSize + 1 := by
  have h := (scanGo_spec (overdueQuery store now) ok batchSize hb 0).1
  have hlen : (overdueQuery store now).length
      = (store.filter (isActionableOverdue now)).length := by
    rw [overdueQuery, length_sortByDue]
  rw [hlen, Nat.sub_zero] at h
  exact h

/-- C7 witness: a one-record store scanned with batch size 2. -/
theorem scanner_terminates_bounded_witness :
    0 < 2 ∧
    (scanGo (overdueQuery [⟨"a", "T", 5, TaskStatus.pending, "u"⟩] 10) (fun _ => true) 2 0).1
      ≤ (([(⟨"a", "T", 5, TaskStatus.pending, "u"⟩ : TaskRec)].filter
            (isActionableOverdue 10)).length + 2 - 1) / 2 + 1 :=
  ⟨by decide,
   scanner_terminates_bounded [⟨"a", "T", 5, TaskStatus.pending, "u"⟩] 10 (fun _ => true) 2
     (by decide)⟩

/-- The 150-record store of the C8 scenario: every record overdue at
instant 10 and actionable. -/
def store150 : List TaskRec :=
  (List.range 150).map (fun i => ⟨"task-" ++ toString i, "T", 5, TaskStatus.pending, "u"⟩)

/-- C8: with 150 overdue records and `BATCH_SIZE = 100`, the scan fetches
a full page of 100 at offset 0, then a short page of 50 at offset 100 and
stops — two fetch iterations — and with no enqueue failures the manual
trigger returns `{processed: 150, queued: 150}`. -/
theorem manual_trigger_aggregates_150 :
    triggerOverdueCheck store150 10 (fun _ => true) = (150, 150) ∧
    (scanGo (overdueQuery store150 10) (fun _ => true) BATCH_SIZE 0).1 = 2 ∧
    (pageAt (overdueQuery store150 10) BATCH_SIZE 0).length = 100 ∧
    (pageAt (overdueQuery store150 10) BATCH_SIZE 100).length = 50 := by
  simp only [BATCH_SIZE]
  have hfl : store150.filter (isActionableOverdue 10) = store150 := by
    apply List.filter_eq_self.mpr
    intro x hx
    rcases List.mem_map.1 hx with ⟨i, -, rfl⟩
    rfl
  have hlen : (overdueQuery store150 10).length = 150 := by
    rw [overdueQuery, length_sortByDue, hfl]
    simp [store150]
  have hp0 : (pageAt (overdueQuery store150 10) 100 0).length = 100 := by
    simp [pageAt, hlen]
  have hp1 : (pageAt (overdueQuery store150 10) 100 100).length = 50 := by
    simp [pageAt, hlen]
  have hsp := scanGo_spec (overdueQuery store150 10) (fun _ => true) 100 (by decide) 0
  have hs1 : (scanGo (overdueQuery store150 10) (fun _ => true) 100 100).1 = 1 := by
    rw [scanGo, dif_neg (by simp [hp1]), dif_pos (by simp [hp1])]
  have hs0 : (scanGo (overdueQuery store150 10) (fun _ => true) 100 0).1 = 2 := by
    rw [scanGo, dif_neg (by simp [hp0]), dif_neg (by simp [hp0])]
    show (scanGo (overdueQuery store150 10) (fun _ => true) 100 (0 + 100)).1 + 1 = 2
    have hoff : (0 : Nat) + 100 = 100 := rfl
    rw [hoff, hs1]
  refine ⟨?_, hs0, hp0, hp1⟩
  have hproc : (scanGo (overdueQuery store150 10) (fun _ => true) 100 0).2.1 = 150 := by
    rw [hsp.2.1, Nat.sub_zero, hlen]
  have hqueue : (scanGo (overdueQuery store150 10) (fun _ => true) 100 0).2.2 = 150 := by
    rw [hsp.2.2, List.drop_zero]
    simp [hlen]
  rw [triggerOverdueCheck, checkOverdueTasksCounts]
  simp only [BATCH_SIZE]
  rw [hproc, hqueue]
/-- Dividing first by an hour and then by 24 equals dividing by a day,
for a non-negative millisecond difference. -/
theorem fdiv_hours_days (a : Int) (h : 0 ≤ a) :
    Int.fdiv (Int.fdiv a 3600000) 24 = Int.fdiv a 86400000 := by
  obtain ⟨n, rfl⟩ := Int.eq_ofNat_of_zero_le h
  have h1 : (3600000 : Int) = ((3600000 : Nat) : Int) := by norm_cast
  have h2 : (24 : Int) = ((24 : Nat) : Int) := by norm_cast
  have h3 : (86400000 : Int) = ((86400000 : Nat) : Int) := by norm_cast
  rw [h1, h2, h3, ← Int.ofNat_fdiv, ← Int.ofNat_fdiv, ← Int.ofNat_fdiv,
    Nat.div_div_eq_div_mul]

/-- C6 counterexample: a record due 30 minutes in the past renders
`"0 hour"`, while the claimed format (singular exactly at count 1)
requires `"0 hours"`. -/
theorem overdueBy_zero_hours_counterexample :
    calculateOverdueDuration 1800000 0 = "0 hour" ∧
    specOverdueByClaim 1800000 0 = "0 hours" ∧
    calculateOverdueDuration 1800000 0 ≠ specOverdueByClaim 1800000 0 := by
  refine ⟨rfl, rfl, by decide⟩

/-- C6 amended: for every strictly-past due instant the rendered string
follows the claimed day/hour selection, with the plural suffix exactly
when the count exceeds 1 (so `0 hour` and `1 hour` are singular). -/
theorem overdueBy_matches_amended (now due : Int) (h : due < now) :
    calculateOverdueDuration now due = specOverdueByAmended now due := by
  have hnn : 0 ≤ now - due := by omega
  have hd := fdiv_hours_days (now - due) hnn
  simp only [calculateOverdueDuration, specOverdueByAmended]
  rw [hd]
  by_cases h1 : Int.fdiv (now - due) 86400000 > 0
  · simp only [h1, if_true]
    by_cases h2 : Int.fdiv (now - due) 86400000 > 1
    · simp only [h2, if_true]
      rw [String.append_assoc]
      congr 1
    · simp only [h2, if_false]
      rw [String.append_empty]
  · simp only [h1, if_false]
    by_cases h2 : Int.fdiv (now - due) 3600000 > 1
    · simp only [h2, if_true]
      rw [String.append_assoc]
      congr 1
    · simp only [h2, if_false]
      rw [String.append_empty]

/-- C6 amended witness: the two scenario instants — due 26 hours ago is
`1 day`, due 3 hours ago is `3 hours` — plus the sub-hour case. -/
theorem overdueBy_matches_amended_witness :
    ((0 : Int) < 93600000 ∧
      calculateOverdueDuration 93600000 0 = specOverdueByAmended 93600000 0) ∧
    calculateOverdueDuration 93600000 0 = "1 day" ∧
    calculateOverdueDuration 10800000 0 = "3 hours" ∧
    calculateOverdueDuration 10800000 0 = specOverdueByAmended 10800000 0 ∧
    calculateOverdueDuration 1800000 0 = specOverdueByAmended 1800000 0 :=
  ⟨⟨by decide, overdueBy_matches_amended 93600000 0 (by decide)⟩,
   rfl, rfl,
   overdueBy_matches_amended 10800000 0 (by decide),
   overdueBy_matches_amended 1800000 0 (by decide)⟩

/-- C3 counterexample: two enqueues of the same record one millisecond
apart — well inside any coarse dedupe-bucket window — produce distinct
job ids, so a dedupe-by-id queue accepts both and two independent
executions of the same logical unit of work result. -/
theorem overdue_jobId_not_bucketed_counterexample :
    makeOverdueJobId "task-1" 1000 ≠ makeOverdueJobId "task-1" 1001 ∧
    (enqueueDedup (enqueueDedup [] (makeOverdueJobId "task-1" 1000))
        (makeOverdueJobId "task-1" 1001)).length = 2 := by
  refine ⟨by decide, by decide⟩

/-- C3 amended: the dedupe id is derived from the record id and the raw
millisecond clock, not a coarse bucket; a second enqueue of the same
record deduplicates exactly when it happens in the same millisecond (the
second enqueue is then a no-op on any queue state), while enqueues one
millisecond apart yield two independent jobs. -/
theorem overdue_jobId_dedupes_only_same_millisecond
    (q : List String) (rid : String) (t : Nat) :
    enqueueDedup (enqueueDedup q (makeOverdueJobId rid t)) (makeOverdueJobId rid t)
      = enqueueDedup q (makeOverdueJobId rid t) ∧
    (enqueueDedup (enqueueDedup [] (makeOverdueJobId "task-1" 1000))
        (makeOverdueJobId "task-1" 1001)).length = 2 := by
  constructor
  · by_cases hc : q.contains (makeOverdueJobId rid t) = true
    · have hq : makeOverdueJobId rid t ∈ q := by simpa using hc
      simp [enqueueDedup, hq]
    · simp only [enqueueDedup, hc, if_false]
      have hmem : (q ++ [makeOverdueJobId rid t]).contains (makeOverdueJobId rid t) = true := by
        simp
      simp [hmem]
  · decide
